import Mathlib

/-!
Shallow embedding of the RAG notebooks: the corrective financial RAG
pipeline (tag-based retrieval, TF-IDF/cosine ranking via argsort,
one-shot corrective retry) and the interactive Bedrock chatbot loop
(fixed retrieval, context assembly, result handling, exit sentinel).
External collaborators (GPT-2 generation, cosine similarity, the Bedrock
HTTP call) are abstracted as oracle parameters; the control flow and the
string handling around them are translated directly from the notebooks.
-/

namespace RAG

/-! ### Python string primitives -/

/-- Python's `str.lower()`, character by character. -/
def pyLower (s : String) : String := ⟨s.data.map Char.toLower⟩

/-- Does the character list start with the given pattern? -/
def startsL : List Char → List Char → Bool
  | _, [] => true
  | [], _ :: _ => false
  | a :: as, b :: bs => a == b && startsL as bs

/-- Substring occurrence on character lists: `containsL hay needle` is true
iff `needle` occurs contiguously inside `hay`. -/
def containsL : List Char → List Char → Bool
  | [], needle => needle.isEmpty
  | h :: t, needle => startsL (h :: t) needle || containsL t needle

/-- Python's `needle in hay` substring test on strings. -/
def pyContains (needle hay : String) : Bool := containsL hay.data needle.data

/-- Python's `sep.join(texts)`. -/
def pyJoin (sep : String) (texts : List String) : String :=
  ⟨List.intercalate sep.data (texts.map String.data)⟩

/-- Whitespace word-splitting, accumulator style: used to model Python's
argument-less `str.split()`. The accumulator holds the current word
reversed. -/
def splitWs : List Char → List Char → List (List Char)
  | [], acc => if acc.isEmpty then [] else [acc.reverse]
  | c :: cs, acc =>
    if c.isWhitespace then
      (if acc.isEmpty then splitWs cs [] else acc.reverse :: splitWs cs [])
    else splitWs cs (c :: acc)

/-! ### Corrective financial RAG notebook: data retrieval -/

/-- A document of the simulated financial database: its text and its
metadata tag list. -/
structure Doc where
  text : String
  metadata : List String
deriving DecidableEq

/-- `retrieve_documents(query, database)` from the corrective notebook:
keeps, in insertion order, each document for which some metadata tag
occurs as a substring of the lower-cased query (Python's `tag in
query.lower()`). -/
def retrieve_documents (query : String) (database : List Doc) : List String :=
  (database.filter
    (fun d => d.metadata.any (fun tag => pyContains tag (pyLower query)))).map Doc.text

/-- The simulated database of four financial documents, as in the source. -/
def financialDatabase : List Doc :=
  [⟨"Company X has significant liquidity risk due to its high debt ratio.",
      ["liquidity risk", "debt"]⟩,
   ⟨"Company X maintains a solid cash reserve, which mitigates some of the liquidity concerns.",
      ["cash reserve", "liquidity"]⟩,
   ⟨"The current market conditions have led to increased liquidity stress for many firms, including Company X.",
      ["market conditions", "liquidity stress"]⟩,
   ⟨"Company X has recently restructured its debt, which lowers its short-term liquidity risk.",
      ["debt restructuring", "liquidity risk"]⟩]

/-- The spec's reading of keyword retrieval, for comparison with
`retrieve_documents`: tokens of the lower-cased query, by whitespace
splitting. -/
def queryTokens (q : String) : List String :=
  (splitWs (pyLower q).data []).map (fun l => ⟨l⟩)

/-- The spec's reading of keyword retrieval: keep documents whose tag set
intersects the tokens of the lower-cased query. Written from the spec's
words, to be compared with the source's `retrieve_documents`. -/
def retrieveSpec (query : String) (database : List Doc) : List String :=
  (database.filter
    (fun d => d.metadata.any (fun tag => (queryTokens query).contains tag))).map Doc.text

/-! ### Similarity ranking: np.argsort and the reversal -/

/-- Insert index `i` into an index list sorted ascending by `key`, placing
`i` before the first index of key ≥ `key i`. Together with `sortIdx` this
is a stable insertion sort (numpy's quicksort falls back to insertion sort
on arrays this small, and insertion sort is stable). -/
def insRank (key : Nat → ℚ) (i : Nat) : List Nat → List Nat
  | [] => [i]
  | j :: js => if key i ≤ key j then i :: j :: js else j :: insRank key i js

/-- Stable insertion sort of an index list, ascending by `key`. -/
def sortIdx (key : Nat → ℚ) : List Nat → List Nat
  | [] => []
  | i :: is => insRank key i (sortIdx key is)

/-- `np.argsort(xs)`: the indices `0, …, n-1` sorted ascending by score;
for equal scores the smaller index comes first (stability). -/
def argsort (xs : List ℚ) : List Nat :=
  sortIdx (fun i => xs.getD i 0) (List.range xs.length)

/-- `ranked_doc_indices = np.argsort(similarities)[::-1]` from the
corrective notebook. -/
def ranked_doc_indices (similarities : List ℚ) : List Nat :=
  (argsort similarities).reverse

/-- `ranked_docs = [documents[i] for i in ranked_doc_indices]`. -/
def ranked_docs (documents : List String) (similarities : List ℚ) : List String :=
  (ranked_doc_indices similarities).map (fun i => documents.getD i "")

/-! ### TF-IDF vectorization and the end-to-end corrective pipeline -/

/-- A word character for sklearn's default token pattern `\w\w+`. -/
def isWordChar (c : Char) : Bool := c.isAlphanum || c == '_'

/-- Split a character list into maximal runs of word characters; the
accumulator holds the current run reversed. -/
def splitWords : List Char → List Char → List (List Char)
  | [], acc => if acc.isEmpty then [] else [acc.reverse]
  | c :: cs, acc =>
    if isWordChar c then splitWords cs (c :: acc)
    else (if acc.isEmpty then splitWords cs [] else acc.reverse :: splitWords cs [])

/-- Modelled from sklearn's `CountVectorizer` analyzer, which the source
delegates to: the vocabulary is the distinct tokens of at least two word
characters of the lower-cased documents. -/
def buildVocab (documents : List String) : List (List Char) :=
  (((documents.map (fun d => splitWords (pyLower d).data [])).flatten).filter
    (fun w => decide (2 ≤ w.length))).dedup

/-- Modelled from sklearn's `TfidfVectorizer.fit_transform`, which the
source delegates to: raises `ValueError("empty vocabulary; …")` when no
vocabulary can be built from the documents (in particular on an empty
document list), and otherwise succeeds. Only the fitted vocabulary and
the error behaviour are represented; the numeric matrix is abstracted
away since nothing in the claims depends on it. -/
def fit_transform (documents : List String) : Except String (List (List Char)) :=
  let vocab := buildVocab documents
  if vocab.isEmpty then
    Except.error "empty vocabulary; perhaps the documents only contain stop words"
  else Except.ok vocab

/-- The corrective notebook's straight-line pipeline up to the first
generation: retrieve, fit the TF-IDF vectorizer (which may raise), score
by the cosine-similarity oracle `sim`, rank by `ranked_doc_indices`,
assemble the top-2 context with `" ".join`, and invoke the generator
oracle `gen` once on it. An error propagates; the generator is applied
only in the `ok` branch. -/
def rag_pipeline (sim : List String → String → List ℚ) (gen : String → String)
    (user_query : String) (database : List Doc) : Except String String :=
  let documents := retrieve_documents user_query database
  match fit_transform documents with
  | Except.error e => Except.error e
  | Except.ok _ =>
    let similarities := sim documents user_query
    let ranked := ranked_docs documents similarities
    let context := pyJoin " " (ranked.take 2)
    Except.ok (gen context)

/-- `corrective_rag(generated_text, database)`: when the marker
`"liquidity risk"` is absent from the generated text, re-retrieve with the
fixed query `"liquidity risk"`, join the first two results and call the
generator once more; otherwise return the text unchanged. `gen` abstracts
the tokenizer/GPT-2/decode chain as a prompt-to-text function, and the
second component counts the additional generation calls. -/
def corrective_rag (gen : String → String) (generated_text : String)
    (database : List Doc) : String × Nat :=
  if !(pyContains "liquidity risk" generated_text) then
    (gen (pyJoin " " ((retrieve_documents "liquidity risk" database).take 2)), 1)
  else (generated_text, 0)

/-! ### The Hybrid RAG chatbot -/

/-- `retrieve_documents(query)` of the Hybrid RAG chatbot notebook:
ignores the query and returns the fixed two hard-coded documents. -/
def retrieve_documents_hybrid (query : String) : List String :=
  ["New York is famous for its pizza. Some popular spots include Joe\x27s Pizza, Lombardi\x27s, and Di Fara Pizza.",
   "New York pizza is known for its thin crust and unique flavor, often attributed to the city\x27s water."]

/-- `context = "\n".join(retrieved_docs)` of one chatbot iteration. -/
def hybrid_context (user_input : String) : String :=
  pyJoin "\n" (retrieve_documents_hybrid user_input)

/-- `combined_input = f"User query: {user_input}\n\nContext:\n{context}"`. -/
def combined_input (user_input : String) : String :=
  "User query: " ++ user_input ++ "\n\nContext:\n" ++ hybrid_context user_input

/-- The parsed JSON body the chatbot inspects, as far as its conditionals
look at it: whether the dict has a `results` key, the `outputText` of each
entry of that list, and how many other keys the dict carries (which
decides Python truthiness of the dict). -/
structure TitanResponse where
  hasResultsKey : Bool
  results : List String
  otherKeys : Nat
deriving DecidableEq

/-- Python truthiness of the parsed dict: it is non-empty. -/
def TitanResponse.truthy (r : TitanResponse) : Bool :=
  r.hasResultsKey || decide (0 < r.otherKeys)

/-- Outcome of the external `client.invoke_model` call plus JSON parse:
either a parsed body, or any raised exception with its message. -/
inductive BackendOutcome where
  | ok (resp : TitanResponse)
  | exn (msg : String)

/-- `invoke_model(prompt_text)`: returns the parsed result; when the
external call raises any exception the handler prints the error and
returns `None` instead of re-raising. -/
def invoke_model (outcome : BackendOutcome) : Option TitanResponse :=
  match outcome with
  | BackendOutcome.ok r => some r
  | BackendOutcome.exn _ => none

/-- The line printed for one query, mirroring the `if result:` /
`if 'results' in result and result['results']:` conditionals of the
chatbot loop body. `None` and the empty dict are both falsy. -/
def chatbot_reply (result : Option TitanResponse) : String :=
  match result with
  | some r =>
    if r.truthy then
      (if r.hasResultsKey && !r.results.isEmpty then
        "Chatbot: " ++ r.results.headD ""
      else "Chatbot: Sorry, I couldn\x27t generate a response.")
    else "Chatbot: Sorry, there was an issue processing your request."
  | none => "Chatbot: Sorry, there was an issue processing your request."

/-- The `chatbot()` loop over the (finite) list of standard-input lines,
with `backend` mapping each prompt to the outcome of the Bedrock call.
Returns the chatbot lines printed and the number of `invoke_model` calls,
i.e. Generator invocations. The loop stops at the first line whose
lower-casing equals `"exit"`, printing the session-ended message without
invoking the model for that line. -/
def chatbot (backend : String → BackendOutcome) : List String → List String × Nat
  | [] => ([], 0)
  | user_input :: rest =>
    if pyLower user_input = "exit" then (["Chatbot session ended."], 0)
    else
      (chatbot_reply (invoke_model (backend (combined_input user_input)))
          :: (chatbot backend rest).1,
        (chatbot backend rest).2 + 1)

/-! ### Context assembly at the character level (for the join/split claim) -/

/-- The Context Assembler, `sep.join(texts)` at the character-list level:
`List.intercalate`. -/
def assemble (texts : List (List Char)) (sep : List Char) : List Char :=
  List.intercalate sep texts

/-- Python's `s.split(sep)` for a one-character separator string `sep`. -/
def splitChar (sep : Char) (s : List Char) : List (List Char) :=
  s.splitOn sep

/-- The separator-joined concatenation as the spec words it, by direct
recursion, to be compared with `assemble`. -/
def joined (sep : List Char) : List (List Char) → List Char
  | [] => []
  | [t] => t
  | t :: t' :: ts => t ++ sep ++ joined sep (t' :: ts)

/-! ### Lemmas about the stable argsort -/

/-- The order the stable ascending sort establishes: strictly smaller key,
or equal key and smaller original index. -/
def rankRel (key : Nat → ℚ) (i j : Nat) : Prop :=
  key i < key j ∨ (key i = key j ∧ i < j)

theorem insRank_perm (key : Nat → ℚ) (i : Nat) (l : List Nat) :
    List.Perm (insRank key i l) (i :: l) := by
  induction l with
  | nil => simp [insRank]
  | cons j js ih =>
    by_cases h : key i ≤ key j
    · simp [insRank, h]
    · rw [insRank, if_neg h]
      exact (ih.cons j).trans (List.Perm.swap i j js)

theorem insRank_pairwise (key : Nat → ℚ) (i : Nat) (l : List Nat)
    (hl : l.Pairwise (rankRel key)) (hgt : ∀ j ∈ l, i < j) :
    (insRank key i l).Pairwise (rankRel key) := by
  induction l with
  | nil => simp [insRank, rankRel]
  | cons j js ih =>
    obtain ⟨hj, hjs⟩ := List.pairwise_cons.mp hl
    by_cases h : key i ≤ key j
    · rw [insRank, if_pos h]
      refine List.Pairwise.cons ?_ hl
      intro x hx
      rcases List.mem_cons.mp hx with rfl | hx'
      · rcases lt_or_eq_of_le h with hlt | heq
        · exact Or.inl hlt
        · exact Or.inr ⟨heq, hgt x (List.mem_cons_self ..)⟩
      · have hle : key j ≤ key x := by
          rcases hj x hx' with hlt | ⟨heq, _⟩
          · exact le_of_lt hlt
          · exact le_of_eq heq
        rcases lt_or_eq_of_le (le_trans h hle) with hlt | heq
        · exact Or.inl hlt
        · exact Or.inr ⟨heq, hgt x (List.mem_cons_of_mem _ hx')⟩
    · rw [insRank, if_neg h]
      refine List.Pairwise.cons ?_
        (ih hjs (fun x hx => hgt x (List.mem_cons_of_mem _ hx)))
      intro x hx
      rcases List.mem_cons.mp ((insRank_perm key i js).mem_iff.mp hx) with rfl | hx'
      · exact Or.inl (not_le.mp h)
      · exact hj x hx'

theorem sortIdx_perm (key : Nat → ℚ) (l : List Nat) :
    List.Perm (sortIdx key l) l := by
  induction l with
  | nil => simp [sortIdx]
  | cons i is ih => exact (insRank_perm key i (sortIdx key is)).trans (ih.cons i)

theorem sortIdx_pairwise (key : Nat → ℚ) (l : List Nat)
    (hl : l.Pairwise (· < ·)) :
    (sortIdx key l).Pairwise (rankRel key) := by
  induction l with
  | nil => simp [sortIdx]
  | cons i is ih =>
    obtain ⟨hi, his⟩ := List.pairwise_cons.mp hl
    exact insRank_pairwise key i _ (ih his)
      (fun j hj => hi j ((sortIdx_perm key is).mem_iff.mp hj))

theorem argsort_perm (xs : List ℚ) :
    List.Perm (argsort xs) (List.range xs.length) :=
  sortIdx_perm _ _

theorem argsort_pairwise (xs : List ℚ) :
    (argsort xs).Pairwise (rankRel (fun i => xs.getD i 0)) :=
  sortIdx_pairwise _ _ (List.pairwise_lt_range _)

theorem insRank_const (key : Nat → ℚ) (c : ℚ) (i : Nat) (l : List Nat)
    (hi : key i = c) (hl : ∀ x ∈ l, key x = c) :
    insRank key i l = i :: l := by
  cases l with
  | nil => rfl
  | cons j js =>
    rw [insRank, if_pos]
    rw [hi, hl j (List.mem_cons_self ..)]

theorem sortIdx_const (key : Nat → ℚ) (c : ℚ) (l : List Nat)
    (hl : ∀ x ∈ l, key x = c) : sortIdx key l = l := by
  induction l with
  | nil => rfl
  | cons i is ih =>
    rw [sortIdx, ih (fun x hx => hl x (List.mem_cons_of_mem _ hx)),
      insRank_const key c i is (hl i (List.mem_cons_self ..))
        (fun x hx => hl x (List.mem_cons_of_mem _ hx))]

theorem argsort_replicate (n : Nat) (c : ℚ) :
    argsort (List.replicate n c) = List.range n := by
  unfold argsort
  rw [List.length_replicate]
  apply sortIdx_const _ c
  intro x hx
  have hxn : x < n := List.mem_range.mp hx
  simp [List.getD_eq_getElem?_getD, List.getElem?_replicate, hxn]

/-! ### Claim C1: order of the similarity ranking -/

/-- C1, counterexample: on two equal scores the code ranks index 1 before
index 0, so ties do not preserve original index order and an all-zero
score vector does not list the lowest index first. -/
theorem C1_counterexample :
    ranked_doc_indices [(0 : ℚ), 0] = [1, 0]
      ∧ ranked_doc_indices [(0 : ℚ), 0] ≠ [0, 1] := by
  constructor
  · decide
  · decide

/-- C1 (amended): for every score list, `ranked_doc_indices` lists the
indices in non-increasing score order, but ties appear in decreasing
original-index order (because `np.argsort(..)[::-1]` reverses a stable
ascending sort); the result is a permutation of all document indices; and
on an all-equal score list (e.g. a query with no vocabulary overlap, all
scores zero) it is exactly the reversed index range, so the document with
the highest original index comes first. -/
theorem C1_ranking_order :
    (∀ xs : List ℚ,
      (ranked_doc_indices xs).Pairwise (fun i j =>
        xs.getD j 0 < xs.getD i 0 ∨ (xs.getD j 0 = xs.getD i 0 ∧ j < i))
      ∧ List.Perm (ranked_doc_indices xs) (List.range xs.length))
    ∧ ∀ (n : Nat) (c : ℚ),
        ranked_doc_indices (List.replicate n c) = (List.range n).reverse := by
  refine ⟨fun xs => ⟨?_, ?_⟩, fun n c => ?_⟩
  · rw [ranked_doc_indices, List.pairwise_reverse]
    exact argsort_pairwise xs
  · exact (List.reverse_perm _).trans (argsort_perm xs)
  · rw [ranked_doc_indices, argsort_replicate]

/-! ### Claim C2: keyword retrieval semantics -/

/-- C2, counterexample: for the source's own query and its first database
document, the code returns the document — its tag "liquidity risk" is a
substring of the lower-cased query — although no tag of the document is a
token of the query, so the token-intersection reading has a false
positive there: under it this document set yields nothing. -/
theorem C2_counterexample :
    retrieve_documents "What is the liquidity risk for Company X?"
        [⟨"Company X has significant liquidity risk due to its high debt ratio.",
          ["liquidity risk", "debt"]⟩]
      = ["Company X has significant liquidity risk due to its high debt ratio."]
    ∧ retrieveSpec "What is the liquidity risk for Company X?"
        [⟨"Company X has significant liquidity risk due to its high debt ratio.",
          ["liquidity risk", "debt"]⟩]
      = [] := by
  constructor <;> decide

/-- C2 (amended): keyword retrieval returns, in insertion order, exactly
the documents one of whose tags occurs as a substring of the lower-cased
query (Python's `tag in query.lower()`), rather than those whose tag set
intersects the query's tokens: every returned text comes from a
substring-matching document, every substring-matching document's text is
returned, and the output is a sublist of the documents' texts in
insertion order. -/
theorem C2_keyword_retrieval (q : String) (db : List Doc) :
    (∀ t ∈ retrieve_documents q db, ∃ d ∈ db, d.text = t
        ∧ ∃ tag ∈ d.metadata, pyContains tag (pyLower q) = true)
    ∧ (∀ d ∈ db, (∃ tag ∈ d.metadata, pyContains tag (pyLower q) = true) →
        d.text ∈ retrieve_documents q db)
    ∧ List.Sublist (retrieve_documents q db) (db.map Doc.text) := by
  refine ⟨?_, ?_, ?_⟩
  · intro t ht
    rw [retrieve_documents] at ht
    obtain ⟨d, hd, rfl⟩ := List.mem_map.mp ht
    obtain ⟨hdb, hmatch⟩ := List.mem_filter.mp hd
    obtain ⟨tag, htag, hc⟩ := List.any_eq_true.mp hmatch
    exact ⟨d, hdb, rfl, tag, htag, hc⟩
  · rintro d hd ⟨tag, htag, hc⟩
    rw [retrieve_documents]
    exact List.mem_map_of_mem _
      (List.mem_filter.mpr ⟨hd, List.any_eq_true.mpr ⟨tag, htag, hc⟩⟩)
  · exact (List.filter_sublist db).map Doc.text

theorem C2_keyword_retrieval_witness :
    "Company X maintains a solid cash reserve, which mitigates some of the liquidity concerns."
      ∈ retrieve_documents "What is the liquidity risk for Company X?" financialDatabase :=
  (C2_keyword_retrieval "What is the liquidity risk for Company X?" financialDatabase).2.1
    ⟨"Company X maintains a solid cash reserve, which mitigates some of the liquidity concerns.",
      ["cash reserve", "liquidity"]⟩
    (by decide) ⟨"liquidity", by decide, by decide⟩

/-! ### Claim C3: the one-shot corrective retry -/

/-- C3: the corrective check performs at most one additional generation
call; with the marker present it performs none and returns the first text
unchanged; with the marker absent it performs exactly one, on the
context joined from the first two documents of the re-retrieval with the
fixed alternate query "liquidity risk", and stops there regardless of the
second result. -/
theorem C3_corrective_one_shot (gen : String → String) (text : String) (db : List Doc) :
    (corrective_rag gen text db).2 ≤ 1
    ∧ (pyContains "liquidity risk" text = true →
        corrective_rag gen text db = (text, 0))
    ∧ (pyContains "liquidity risk" text = false →
        corrective_rag gen text db =
          (gen (pyJoin " " ((retrieve_documents "liquidity risk" db).take 2)), 1)) := by
  cases h : pyContains "liquidity risk" text <;> simp [corrective_rag, h]

theorem C3_corrective_one_shot_witness :
    corrective_rag (fun _ => "retry output") "report without the marker" [] =
      ("retry output", 1) :=
  (C3_corrective_one_shot (fun _ => "retry output") "report without the marker" []).2.2
    (by decide)

/-! ### Claim C9: case sensitivity of the marker test -/

/-- C9: the acceptance test is a case-sensitive exact-substring test: any
text containing the exact lowercase "liquidity risk" is accepted with
zero additional calls, while a concrete text containing the marker only
as "Liquidity Risk" fails the test and triggers the one-shot retry. -/
theorem C9_marker_case_sensitive (gen : String → String) (db : List Doc) :
    (∀ text : String, pyContains "liquidity risk" text = true →
        corrective_rag gen text db = (text, 0))
    ∧ (corrective_rag gen "Company X faces Liquidity Risk." db).2 = 1 := by
  constructor
  · intro text h
    simp [corrective_rag, h]
  · have h : pyContains "liquidity risk" "Company X faces Liquidity Risk." = false := by
      decide
    simp [corrective_rag, h]

theorem C9_marker_case_sensitive_witness :
    corrective_rag (fun _ => "g") "liquidity risk is low" [] =
      ("liquidity risk is low", 0) :=
  (C9_marker_case_sensitive (fun _ => "g") []).1 "liquidity risk is low" (by decide)

/-! ### Claim C4: empty document set -/

/-- C4, counterexample: on the empty document set the pipeline never
reaches the Generator: the TF-IDF fit raises the empty-vocabulary error
first, so no generation from an empty context happens. -/
theorem C4_counterexample :
    rag_pipeline (fun _ _ => []) (fun _ => "generated") "any query" [] =
      Except.error "empty vocabulary; perhaps the documents only contain stop words" :=
  rfl

/-- C4 (amended): for the empty document set and any query, retrieval
returns the empty sequence, but the pipeline then raises the
empty-vocabulary error at the TF-IDF fit, so the run errors out and the
Generator is not invoked with an empty-context prompt. -/
theorem C4_empty_document_set (sim : List String → String → List ℚ)
    (gen : String → String) (q : String) :
    retrieve_documents q [] = []
    ∧ rag_pipeline sim gen q [] =
        Except.error "empty vocabulary; perhaps the documents only contain stop words" :=
  ⟨rfl, rfl⟩

/-! ### Claim C5: context assembly and the join/split round trip -/

theorem assemble_eq_joined (sep : List Char) (texts : List (List Char)) :
    assemble texts sep = joined sep texts := by
  induction texts with
  | nil => rfl
  | cons t ts ih =>
    cases ts with
    | nil => simp [assemble, joined, List.intercalate]
    | cons t' ts' =>
      rw [joined, ← ih]
      simp [assemble, List.intercalate, List.intersperse]

/-- C5, counterexample: the round trip fails as soon as a document text
contains the separator — here the single document "a b" joined and then
split by the space comes back as two texts. -/
theorem C5_counterexample :
    splitChar ' ' (assemble [['a', ' ', 'b']] [' ']) = [['a'], ['b']]
    ∧ splitChar ' ' (assemble [['a', ' ', 'b']] [' ']) ≠ [['a', ' ', 'b']] := by
  constructor <;> decide

/-- C5 (amended): `assemble` is exactly the separator-joined concatenation
of the texts in order, for every separator; the split round-trip holds
when the separator is a single character occurring in no document text
and the document list is non-empty (otherwise splitting can cut inside a
text, as the counterexample shows, and splitting the empty join yields a
single empty text). -/
theorem C5_assemble_roundtrip :
    (∀ (texts : List (List Char)) (sep : List Char),
      assemble texts sep = joined sep texts)
    ∧ ∀ (texts : List (List Char)) (sep : Char),
        (∀ t ∈ texts, sep ∉ t) → texts ≠ [] →
        splitChar sep (assemble texts [sep]) = texts := by
  constructor
  · intro texts sep
    exact assemble_eq_joined sep texts
  · intro texts sep hsep hne
    simpa [splitChar, assemble] using List.splitOn_intercalate texts sep hsep hne

theorem C5_assemble_roundtrip_witness :
    assemble [['a', 'b'], ['c']] [' '] = joined [' '] [['a', 'b'], ['c']]
    ∧ splitChar ' ' (assemble [['a', 'b'], ['c']] [' ']) = [['a', 'b'], ['c']] :=
  ⟨C5_assemble_roundtrip.1 [['a', 'b'], ['c']] [' '],
    C5_assemble_roundtrip.2 [['a', 'b'], ['c']] ' ' (by decide) (by decide)⟩

/-! ### Claim C6: generation failure handling -/

/-- C6: an exception in the external call is not propagated —
`invoke_model` returns no output — and the loop prints the
request-failure fallback for that line and continues with the remaining
input lines instead of terminating. -/
theorem C6_generation_failure (backend : String → BackendOutcome)
    (line e : String) (rest : List String)
    (hline : pyLower line ≠ "exit")
    (hfail : backend (combined_input line) = BackendOutcome.exn e) :
    invoke_model (BackendOutcome.exn e) = none
    ∧ chatbot backend (line :: rest) =
        ("Chatbot: Sorry, there was an issue processing your request."
            :: (chatbot backend rest).1,
          (chatbot backend rest).2 + 1) := by
  refine ⟨rfl, ?_⟩
  simp [chatbot, hline, hfail, invoke_model, chatbot_reply]

theorem C6_generation_failure_witness :
    invoke_model (BackendOutcome.exn "network error") = none
    ∧ chatbot (fun _ => BackendOutcome.exn "network error") ["hello"] =
        ("Chatbot: Sorry, there was an issue processing your request."
            :: (chatbot (fun _ => BackendOutcome.exn "network error") []).1,
          (chatbot (fun _ => BackendOutcome.exn "network error") []).2 + 1) :=
  C6_generation_failure (fun _ => BackendOutcome.exn "network error")
    "hello" "network error" [] (by decide) rfl

/-! ### Claim C7: the exit sentinel -/

/-- C7: the loop processes input lines until the first whose lower-casing
equals "exit"; it terminates on that line without invoking the Generator
for it or for anything after it, so the invocation count equals the
number of preceding lines; with "exit" as the very first line, zero
Generator invocations occur and only the session-ended message is
printed. -/
theorem C7_exit_sentinel (backend : String → BackendOutcome)
    (pre : List String) (ex : String) (post : List String)
    (hex : pyLower ex = "exit")
    (hpre : ∀ l ∈ pre, pyLower l ≠ "exit") :
    (chatbot backend (pre ++ ex :: post)).2 = pre.length
    ∧ chatbot backend (pre ++ ex :: post) = chatbot backend (pre ++ [ex])
    ∧ chatbot backend (ex :: post) = (["Chatbot session ended."], 0) := by
  have hstop : ∀ post' : List String,
      chatbot backend (ex :: post') = (["Chatbot session ended."], 0) := by
    intro post'
    simp [chatbot, hex]
  induction pre with
  | nil => simp [hstop]
  | cons l ls ih =>
    have hl : pyLower l ≠ "exit" := hpre l (List.mem_cons_self ..)
    obtain ⟨ih1, ih2, _⟩ := ih (fun x hx => hpre x (List.mem_cons_of_mem _ hx))
    refine ⟨?_, ?_, hstop post⟩
    · simp [chatbot, hl, ih1]
    · simp [chatbot, hl, ih2]

theorem C7_exit_sentinel_witness :
    (chatbot (fun _ => BackendOutcome.ok ⟨true, ["answer"], 0⟩)
        (["hi"] ++ "Exit" :: ["ignored"])).2 = 1
    ∧ chatbot (fun _ => BackendOutcome.ok ⟨true, ["answer"], 0⟩)
          (["hi"] ++ "Exit" :: ["ignored"]) =
        chatbot (fun _ => BackendOutcome.ok ⟨true, ["answer"], 0⟩) (["hi"] ++ ["Exit"])
    ∧ chatbot (fun _ => BackendOutcome.ok ⟨true, ["answer"], 0⟩) ("Exit" :: ["ignored"]) =
        (["Chatbot session ended."], 0) :=
  C7_exit_sentinel (fun _ => BackendOutcome.ok ⟨true, ["answer"], 0⟩)
    ["hi"] "Exit" ["ignored"] (by decide) (by decide)

/-! ### Claim C8: query-independent retrieval in the chatbot -/

/-- C8: the chatbot's retrieval ignores the query: any two queries yield
the identical fixed two-document list and the identical assembled
context, and the combined prompt is the user-query line followed by the
fixed context, so only that prefix varies between two runs. -/
theorem C8_fixed_retrieval (q q' : String) :
    retrieve_documents_hybrid q = retrieve_documents_hybrid q'
    ∧ (retrieve_documents_hybrid q).length = 2
    ∧ hybrid_context q = hybrid_context q'
    ∧ combined_input q = "User query: " ++ q ++ "\n\nContext:\n" ++ hybrid_context q' :=
  ⟨rfl, rfl, rfl, rfl⟩

/-! ### Claim C10: missing results list -/

/-- C10, counterexample: an empty parsed dict is falsy in Python, so the
`if result:` test sends it to the request-failure message, not to the
"couldn't generate" fallback that the claim names for it. -/
theorem C10_counterexample :
    chatbot_reply (some ⟨false, [], 0⟩) =
      "Chatbot: Sorry, there was an issue processing your request."
    ∧ chatbot_reply (some ⟨false, [], 0⟩) ≠
      "Chatbot: Sorry, I couldn\x27t generate a response." := by
  constructor <;> decide

/-- C10 (amended): when the call succeeds with a truthy (non-empty)
parsed dict lacking a non-empty results list, the loop prints the
"couldn't generate" fallback for that line and continues with the next
input line without raising; an empty dict, being falsy, instead takes the
request-failure branch. -/
theorem C10_no_results_fallback (backend : String → BackendOutcome)
    (r : TitanResponse) (line : String) (rest : List String)
    (htruthy : r.truthy = true)
    (hnores : r.hasResultsKey = false ∨ r.results = [])
    (hline : pyLower line ≠ "exit")
    (hb : backend (combined_input line) = BackendOutcome.ok r) :
    chatbot_reply (some r) = "Chatbot: Sorry, I couldn\x27t generate a response."
    ∧ chatbot backend (line :: rest) =
        ("Chatbot: Sorry, I couldn\x27t generate a response."
            :: (chatbot backend rest).1,
          (chatbot backend rest).2 + 1) := by
  have hr : chatbot_reply (some r) =
      "Chatbot: Sorry, I couldn\x27t generate a response." := by
    rcases hnores with h | h <;> simp [chatbot_reply, htruthy, h]
  refine ⟨hr, ?_⟩
  simp [chatbot, hline, hb, invoke_model, hr]

theorem C10_no_results_fallback_witness :
    chatbot_reply (some ⟨true, [], 1⟩) =
      "Chatbot: Sorry, I couldn\x27t generate a response."
    ∧ chatbot (fun _ => BackendOutcome.ok ⟨true, [], 1⟩) ["hi"] =
        ("Chatbot: Sorry, I couldn\x27t generate a response."
            :: (chatbot (fun _ => BackendOutcome.ok ⟨true, [], 1⟩) []).1,
          (chatbot (fun _ => BackendOutcome.ok ⟨true, [], 1⟩) []).2 + 1) :=
  C10_no_results_fallback (fun _ => BackendOutcome.ok ⟨true, [], 1⟩)
    ⟨true, [], 1⟩ "hi" [] rfl (Or.inr rfl) (by decide) rfl

end RAG
